import Mathlib

/-!
Shallow embedding of the game-session controller of `src/scene.rs`
(the `Scene` type and its `update`/`draw`/`event` entry points, the
spawn scheduler `entity_factory`, the outcome resolvers `defeat` /
`victory`, input routing, and the draw-time asset gate).

External collaborators (the specs ECS store internals, the quicksilver
windowing/rendering layer, the async asset loader, the audio backend)
are embedded as explicit data with observable effect counters, or as
oracle parameters where the source runs arbitrary simulation systems
over the world.  Modules of this repository that are not available
under `src/` (resources.rs, music.rs, hero.rs, enemy.rs,
entity_factory.rs) are modelled from the spec where noted.
-/

/-- `GameState` from src/scene.rs lines 27-34 (the source spells the
second state `Initialiazing`). -/
inductive GameState where
  | WaitingInput
  | Initialiazing
  | Running
  | Paused
  | GameOver
deriving DecidableEq, Repr

/-- Modelled from the spec: `GameStateFlag` of resources.rs (not under
src/), the optional outcome value `{Victory, Defeat}`. -/
inductive GameStateFlag where
  | Victory
  | Defeat
deriving DecidableEq, Repr

/-- Modelled from the spec: `LabelVariable` of resources.rs (not under
src/), the closed set of label-variable identifiers. -/
inductive LabelVariable where
  | FramesPerSecond
  | HeroLives
  | Score
  | EngineVersion
deriving DecidableEq, Repr

/-- Modelled from the spec: `KeyboardKeys` of resources.rs (not under
src/): distinct bit indices, one per movement direction, used as the
`as u32` discriminants in src/scene.rs lines 208-233. -/
inductive KeyboardKeys where
  | KeyUp
  | KeyLeft
  | KeyRight
deriving DecidableEq, Repr

/-- The `as u32` discriminant of a `KeyboardKeys` value; the exact
numbers are irrelevant, only their distinctness is used. -/
def KeyboardKeys.asU32 : KeyboardKeys → Nat
  | .KeyUp => 0
  | .KeyLeft => 1
  | .KeyRight => 2

/-- Modelled from the spec: the protagonist component `Hero` of
component.rs (not under src/); src/scene.rs lines 333-334 read its
`lives` and `score` fields. -/
structure Hero where
  lives : Nat
  score : Nat
deriving DecidableEq, Repr

/-- The component payload of an entity, as far as the controller in
src/scene.rs creates or inspects entities: backgrounds
(`create_background`, lines 410-422: Background + Position + Render),
labels (`create_label`, lines 424-438), the protagonist, and the
factory-produced antagonists (opaque to the controller). -/
inductive EntityKind where
  | backgroundE (sprite : String) (pos : Nat × Nat)
  | labelE (v : LabelVariable) (pos : Nat × Nat)
  | heroE (h : Hero)
  | enemyE
  | bossE
deriving DecidableEq, Repr

/-- An entity of the store: an arena id plus its components. -/
structure EntityRec where
  eid : Nat
  kind : EntityKind
deriving DecidableEq, Repr

/-- `VariableDictionary` of resources.rs as used by src/scene.rs lines
326-343 and 391-404: a total map on the four `LabelVariable` keys,
embedded as one field per key. -/
structure VariableDictionary where
  framesPerSecond : String
  heroLives : String
  score : String
  engineVersion : String
deriving DecidableEq, Repr

/-- The slice of the specs `World` that src/scene.rs touches: the
entity arena plus the three shared resources (`GameStateFlagRes`,
`PressedKeys`, `VariableDictionary`).  `maintains` counts the calls to
the external deferred-mutation commit `world.maintain()`, so that
"maintain ran" is observable in the embedding. -/
structure World where
  nextId : Nat
  entities : List EntityRec
  flag : Option GameStateFlag
  pressedKeys : List Nat
  dict : VariableDictionary
  maintains : Nat
deriving DecidableEq, Repr

/-- `world.create_entity()...build()`: allocate the next arena id and
add the entity (alive immediately, as in specs `build`). -/
def World.create_entity (w : World) (k : EntityKind) : World × Nat :=
  ({ w with nextId := w.nextId + 1, entities := w.entities ++ [⟨w.nextId, k⟩] }, w.nextId)

/-- `world.delete_all()` (src/scene.rs line 318): destroys every
entity. -/
def World.delete_all (w : World) : World :=
  { w with entities := [] }

/-- `world.maintain()`: the external deferred-mutation commit, counted
for observability. -/
def World.maintain (w : World) : World :=
  { w with maintains := w.maintains + 1 }

/-- Bit-set `add` of the `PressedKeys` bit-vector (hibitset): set the
bit, a no-op when already set. -/
def bitsetAdd (s : List Nat) (k : Nat) : List Nat :=
  if k ∈ s then s else k :: s

/-- Bit-set `remove` of the `PressedKeys` bit-vector: clear the bit. -/
def bitsetRemove (s : List Nat) (k : Nat) : List Nat :=
  s.filter (fun x => x ≠ k)

/-- Modelled from the spec: `MusicPlayer` of music.rs (not under
src/): tracked-state playback by track identifier.  `current` is the
playing track; `updates` counts the external `update()` ticks so that
"audio advance ran" is observable. -/
structure MusicPlayer where
  current : Option String
  updates : Nat
deriving DecidableEq, Repr

/-- Modelled from the spec: `MusicPlayer::play_music` starts or
switches playback to the given track (idempotent when already
playing). -/
def MusicPlayer.play_music (m : MusicPlayer) (track : String) : MusicPlayer :=
  { m with current := some track }

/-- Modelled from the spec: `MusicPlayer::update` advances playback
(fade/loop) state each frame. -/
def MusicPlayer.update (m : MusicPlayer) : MusicPlayer :=
  { m with updates := m.updates + 1 }

/-- `SceneConfig` from src/scene.rs lines 36-53.  The nested
`hero_config` / `boss_config` / `entity_factory_config` bundles are
consumed only by the out-of-src sub-builders and are omitted. -/
structure SceneConfig where
  atlas : String
  font : String
  main_background : String
  defeat_background : String
  victory_background : String
  boss_cycle : Nat
  new_body_cycle : Nat
  normal_music : String
  boss_music : String
  game_over_music : String
  victory_music : String
deriving DecidableEq, Repr

/-- `Default for SceneConfig` from src/scene.rs lines 55-74. -/
def SceneConfig.default : SceneConfig where
  atlas := "evil_alligator.atlas"
  font := "cmunrm.ttf"
  main_background := "cenario"
  defeat_background := "inferno"
  victory_background := "ceu"
  boss_cycle := 11
  new_body_cycle := 210
  normal_music := "music/normal.ogg"
  boss_music := "music/boss.ogg"
  game_over_music := "music/gameover.ogg"
  victory_music := "music/victory.ogg"

/-- The `CARGO_PKG_VERSION` compile-time constant of src/scene.rs
lines 337 and 398; its value is opaque to the controller logic. -/
def cargoPkgVersion : String := "1.0.0"

/-- `Scene` from src/scene.rs lines 76-87.  The atlas/font asset
handles are external asynchronous loaders polled during `draw`; their
readiness is passed to `draw` as an input instead of stored. -/
structure Scene where
  world : World
  hero : Nat
  state : GameState
  cycle_timer : Nat
  cycle_counter : Nat
  music_player : MusicPlayer
  config : SceneConfig
deriving DecidableEq, Repr

/-- The trace of external calls the spawn scheduler makes during one
tick: audio-track switches and spawn requests to the entity factory /
boss builder. -/
inductive Ev where
  | playMusic (track : String)
  | spawnRoutine
  | spawnBoss
deriving DecidableEq, Repr

/-- Modelled from the spec: `crate::enemy::create_boss` (enemy.rs not
under src/) requests a single boss entity into the store. -/
def create_boss (w : World) : World :=
  (w.create_entity .bossE).1

/-- Modelled from the spec: `EntityFactory::create_entity`
(entity_factory.rs not under src/) produces one routine antagonist
entity into the store. -/
def factory_create_entity (w : World) : World :=
  (w.create_entity .enemyE).1

/-- `create_label` from src/scene.rs lines 424-438 (the float-valued
`FontStyle` is render-only data and is not represented). -/
def create_label (w : World) (v : LabelVariable) (pos : Nat × Nat) : World × Nat :=
  w.create_entity (.labelE v pos)

/-- `create_background` from src/scene.rs lines 410-422. -/
def create_background (w : World) (sprite : String) : World × Nat :=
  w.create_entity (.backgroundE sprite (400, 300))

/-- Modelled from the spec: `crate::hero::create_hero` (hero.rs not
under src/) creates the single protagonist entity and returns its id;
the initial 5 lives / 0 score match the initial dictionary of
src/scene.rs lines 391-404. -/
def create_hero (w : World) : World × Nat :=
  w.create_entity (.heroE ⟨5, 0⟩)

/-- `add_resorces` from src/scene.rs lines 389-408 (initial values of
the three shared resources). -/
def add_resorces : Option GameStateFlag × List Nat × VariableDictionary :=
  (none, [], ⟨"60", "5", "0", "v" ++ cargoPkgVersion⟩)

/-- `Scene::new` from src/scene.rs lines 90-138 (the fallible
asset/audio setup is external; entity creation order preserved). -/
def Scene.new (config : SceneConfig) : Scene :=
  let w0 : World :=
    { nextId := 0, entities := [], flag := add_resorces.1,
      pressedKeys := add_resorces.2.1, dict := add_resorces.2.2, maintains := 0 }
  let w1 := (create_background w0 config.main_background).1
  let w2 := (create_label w1 .FramesPerSecond (20, 587)).1
  let w3 := (create_label w2 .HeroLives (10, 20)).1
  let w4 := (create_label w3 .Score (730, 20)).1
  let w5 := (create_label w4 .EngineVersion (730, 587)).1
  let hw := create_hero w5
  { world := hw.1, hero := hw.2, state := .WaitingInput,
    cycle_timer := 0, cycle_counter := 0,
    music_player := ⟨none, 0⟩, config := config }

/-- `Scene::entity_factory` from src/scene.rs lines 278-297 (the spawn
scheduler).  Returns the updated scene together with the ordered trace
of external calls (audio switches and spawn requests) made during the
tick. -/
def Scene.entity_factory (s : Scene) : Scene × List Ev :=
  if s.cycle_counter < s.config.boss_cycle then
    let p : Scene × List Ev :=
      if s.cycle_timer = 0 then
        ({ s with music_player := s.music_player.play_music s.config.normal_music },
         [Ev.playMusic s.config.normal_music])
      else (s, [])
    let s : Scene := { p.1 with cycle_timer := p.1.cycle_timer + 1 }
    if s.cycle_timer % s.config.new_body_cycle = 0 then
      let s : Scene := { s with cycle_counter := s.cycle_counter + 1 }
      if s.cycle_counter = s.config.boss_cycle then
        let s : Scene :=
          { s with music_player := s.music_player.play_music s.config.boss_music }
        ({ s with world := create_boss s.world },
         p.2 ++ [Ev.playMusic s.config.boss_music, Ev.spawnBoss])
      else
        ({ s with world := factory_create_entity s.world }, p.2 ++ [Ev.spawnRoutine])
    else (s, p.2)
  else (s, [])

/-- `Scene::run_update_systems` from src/scene.rs lines 268-276: the
six external simulation systems run in fixed order over the store;
their combined effect on the world is the oracle `sys`. -/
def Scene.run_update_systems (s : Scene) (sys : World → World) : Scene :=
  { s with world := sys s.world }

/-- `Scene::end_game` from src/scene.rs lines 317-321. -/
def Scene.end_game (s : Scene) : Scene :=
  { s with world := s.world.delete_all, state := .GameOver }

/-- `Scene::defeat` from src/scene.rs lines 299-306. -/
def Scene.defeat (s : Scene) : Scene :=
  let s := s.end_game
  let s := { s with world := (create_background s.world s.config.defeat_background).1 }
  { s with music_player := s.music_player.play_music s.config.game_over_music }

/-- `Scene::victory` from src/scene.rs lines 308-315. -/
def Scene.victory (s : Scene) : Scene :=
  let s := s.end_game
  let s := { s with world := (create_background s.world s.config.victory_background).1 }
  { s with music_player := s.music_player.play_music s.config.victory_music }

/-- `Scene::update` from src/scene.rs lines 140-157, with the
simulation pipeline's world effect as the oracle `sys`. -/
def Scene.update (s : Scene) (sys : World → World) : Scene :=
  if s.state ≠ GameState.WaitingInput then
    let s :=
      if s.state = GameState.Running then
        let s := (s.entity_factory).1
        let s := s.run_update_systems sys
        match s.world.flag with
        | some GameStateFlag.Victory => s.victory
        | some GameStateFlag.Defeat => s.defeat
        | none => s
      else s
    let s := { s with music_player := s.music_player.update }
    { s with world := s.world.maintain }
  else s

/-- Look the protagonist up in the store
(`hero_storage.get(self.hero)`, src/scene.rs line 325). -/
def heroLookup (w : World) (i : Nat) : Option Hero :=
  match w.entities.find? (fun e => e.eid = i) with
  | some e =>
    match e.kind with
    | .heroE h => some h
    | _ => none
  | none => none

/-- `Scene::update_labels` from src/scene.rs lines 323-346.
`fpsText` stands for the already formatted
`format!("{:.0}", window.average_fps())` string (an external float
source). -/
def Scene.update_labels (s : Scene) (fpsText : String) : Scene :=
  match heroLookup s.world s.hero with
  | some h =>
    { s with world :=
        { s.world with dict :=
            ⟨fpsText, toString h.lives, toString h.score, "v" ++ cargoPkgVersion⟩ } }
  | none => s

/-- `Scene::has_loaded_atlas` from src/scene.rs lines 348-358:
short-circuits to `true` past the loading states, otherwise polls the
handle; `ready` is the poll result. -/
def Scene.has_loaded_atlas (s : Scene) (ready : Bool) : Bool :=
  if s.state ≠ GameState.WaitingInput ∧ s.state ≠ GameState.Initialiazing then true
  else ready

/-- `Scene::has_loaded_font` from src/scene.rs lines 360-370. -/
def Scene.has_loaded_font (s : Scene) (ready : Bool) : Bool :=
  if s.state ≠ GameState.WaitingInput ∧ s.state ≠ GameState.Initialiazing then true
  else ready

/-- `Scene::draw` from src/scene.rs lines 159-191.  `atlasReady` /
`fontReady` are the per-call poll results of the two asset handles;
window clearing, the start prompt, `RenderSystem` and
`LabelRenderSystem` are draw-command emitters that do not mutate the
world (spec section 5: systems only read during draw, the controller
is the sole label writer). -/
def Scene.draw (s : Scene) (atlasReady fontReady : Bool) (fpsText : String) : Scene :=
  let loaded := s.has_loaded_atlas atlasReady && s.has_loaded_font fontReady
  if loaded = false then s
  else if loaded && s.state = GameState.WaitingInput then s
  else
    let s :=
      if loaded && s.state = GameState.Initialiazing then
        { s with state := GameState.Running }
      else s
    let s := if s.state = GameState.Running then s.update_labels fpsText else s
    { s with world := s.world.maintain }

/-- The input-event alphabet discriminated by src/scene.rs lines
193-266: the named keys and gamepad buttons it matches on, plus opaque
stand-ins for every other key, button or event kind. -/
inductive Key where
  | up | w | left | a | right | d | p | pauseKey | escape | ret
  | otherKey (n : Nat)
deriving DecidableEq, Repr

/-- Button press/release state. -/
inductive BState where
  | pressed
  | released
deriving DecidableEq, Repr

/-- Gamepad buttons discriminated by src/scene.rs. -/
inductive GButton where
  | dpadUp | dpadLeft | dpadRight | start
  | otherButton (n : Nat)
deriving DecidableEq, Repr

/-- Window events discriminated by src/scene.rs (`Event` of
quicksilver). -/
inductive Event where
  | key (k : Key) (st : BState)
  | gamepadButton (pad : Nat) (b : GButton) (st : BState)
  | otherEvent (n : Nat)
deriving DecidableEq, Repr

/-- `Scene::event` from src/scene.rs lines 193-266.  The returned
`Bool` records whether `window.close()` was requested (GameOver
branch). -/
def Scene.event (s : Scene) (e : Event) : Scene × Bool :=
  match s.state with
  | .WaitingInput =>
    match e with
    | .key .ret .pressed => ({ s with state := .Initialiazing }, false)
    | _ => (s, false)
  | .Running | .Paused =>
    let keys := s.world.pressedKeys
    let p : List Nat × GameState :=
      match e with
      | .key .up .pressed | .key .w .pressed
      | .gamepadButton _ .dpadUp .pressed =>
        (bitsetAdd keys KeyboardKeys.KeyUp.asU32, s.state)
      | .key .up .released | .key .w .released
      | .gamepadButton _ .dpadUp .released =>
        (bitsetRemove keys KeyboardKeys.KeyUp.asU32, s.state)
      | .key .left .pressed | .key .a .pressed
      | .gamepadButton _ .dpadLeft .pressed =>
        (bitsetAdd keys KeyboardKeys.KeyLeft.asU32, s.state)
      | .key .left .released | .key .a .released
      | .gamepadButton _ .dpadLeft .released =>
        (bitsetRemove keys KeyboardKeys.KeyLeft.asU32, s.state)
      | .key .right .pressed | .key .d .pressed
      | .gamepadButton _ .dpadRight .pressed =>
        (bitsetAdd keys KeyboardKeys.KeyRight.asU32, s.state)
      | .key .right .released | .key .d .released
      | .gamepadButton _ .dpadRight .released =>
        (bitsetRemove keys KeyboardKeys.KeyRight.asU32, s.state)
      | .key .p .pressed | .key .pauseKey .pressed
      | .gamepadButton _ .start .pressed =>
        (keys,
         if s.state = GameState.Running then GameState.Paused
         else if s.state = GameState.Paused then GameState.Running
         else s.state)
      | _ => (keys, s.state)
    let s := { s with world := { s.world with pressedKeys := p.1 }, state := p.2 }
    match e with
    | .key .escape .pressed =>
      ({ s with world := { s.world with flag := some GameStateFlag.Defeat } }, false)
    | _ => (s, false)
  | .GameOver =>
    match e with
    | .key .escape .pressed | .key .ret .pressed
    | .gamepadButton _ .start .pressed => (s, true)
    | _ => (s, false)
  | _ => (s, false)

/-- The scheduler state after `n` ticks of a session: `Scene::new`
followed by the draw-time start (state `Running`), then `n` calls to
`entity_factory` (which `Scene::update` performs exactly once per call
while `Running`, src/scene.rs line 143). -/
def schedIter (cfg : SceneConfig) : Nat → Scene
  | 0 => { Scene.new cfg with state := GameState.Running }
  | n + 1 => ((schedIter cfg n).entity_factory).1

/-- The external-call trace of tick `n + 1` of the spawn scheduler
(ticks are 1-indexed in the spec: tick `i` is `tickTrace cfg (i - 1)`). -/
def tickTrace (cfg : SceneConfig) (n : Nat) : List Ev :=
  ((schedIter cfg n).entity_factory).2

/-- The scene after steps 1-2 of the update pipeline (spawn scheduler
tick, then the simulation systems' world effect `sys`). -/
def pipelineResult (s : Scene) (sys : World → World) : Scene :=
  ((s.entity_factory).1).run_update_systems sys

/-- Steps 4-5 of `Scene::update` (src/scene.rs lines 153-154): advance
audio playback, then commit deferred mutations. -/
def updateTail (s : Scene) : Scene :=
  { s with music_player := s.music_player.update, world := s.world.maintain }

/-- The outcome dispatch of src/scene.rs lines 147-150: `Victory` goes
to the victory resolver, `Defeat` to the defeat resolver. -/
def resolveOutcome (f : GameStateFlag) (s : Scene) : Scene :=
  match f with
  | .Victory => s.victory
  | .Defeat => s.defeat

/-- Follows the spec's words (section 4.5), for comparison with the
source resolvers: destroy all entities in the store, transition state
to `GameOver`, create one fresh full-screen background entity with the
outcome image, and switch audio to the outcome track. -/
def outcomeSpec (s : Scene) (sprite track : String) : Scene :=
  { s with
    world :=
      { s.world.delete_all with
        nextId := s.world.nextId + 1,
        entities := [⟨s.world.nextId, .backgroundE sprite (400, 300)⟩] },
    state := GameState.GameOver,
    music_player := s.music_player.play_music track }

/-- The directional-movement input aliases of spec section 4.4
(arrows, WASD, d-pad), press or release: the events routed into
`PressedKeySet` while `Running`/`Paused`. -/
def directionalEvent : Event → Bool
  | .key .up _ | .key .w _ | .key .left _ | .key .a _ | .key .right _ | .key .d _ => true
  | .gamepadButton _ .dpadUp _ | .gamepadButton _ .dpadLeft _
  | .gamepadButton _ .dpadRight _ => true
  | _ => false

/-- The input-triggered transitions of the spec section 4.1 table:
confirm while waiting, pause toggle and quit while running/paused,
confirm or quit at game over. -/
def tableEvent (st : GameState) (e : Event) : Bool :=
  match st, e with
  | .WaitingInput, .key .ret .pressed => true
  | .Running, .key .p .pressed | .Running, .key .pauseKey .pressed
  | .Running, .gamepadButton _ .start .pressed
  | .Paused, .key .p .pressed | .Paused, .key .pauseKey .pressed
  | .Paused, .gamepadButton _ .start .pressed => true
  | .Running, .key .escape .pressed | .Paused, .key .escape .pressed => true
  | .GameOver, .key .escape .pressed | .GameOver, .key .ret .pressed
  | .GameOver, .gamepadButton _ .start .pressed => true
  | _, _ => false

/-- An event with any routing effect in the given state: a section 4.1
table transition, or a directional alias routed while
`Running`/`Paused`. -/
def handledEvent (st : GameState) (e : Event) : Bool :=
  tableEvent st e ||
    ((st = GameState.Running || st = GameState.Paused) && directionalEvent e)

/-- A freshly constructed session with the default configuration. -/
def scene0 : Scene := Scene.new SceneConfig.default

/-- A running session whose outcome resource was set to `Victory`. -/
def sceneRunningVictory : Scene :=
  { scene0 with
    state := GameState.Running,
    world := { scene0.world with flag := some GameStateFlag.Victory } }

/-- A running session (the default one after the start input and the
draw-time asset gate). -/
def sceneRunning : Scene := { scene0 with state := GameState.Running }

/-- A session waiting on the draw-time asset gate. -/
def sceneInit : Scene := { scene0 with state := GameState.Initialiazing }

/-- A paused session. -/
def scenePaused : Scene := { scene0 with state := GameState.Paused }

/-- A paused session in which the quit input already set the outcome
resource to `Defeat`. -/
def scenePausedDefeat : Scene :=
  { scene0 with
    state := GameState.Paused,
    world := { scene0.world with flag := some GameStateFlag.Defeat } }

lemma entity_factory_timer (s : Scene) :
    (s.entity_factory).1.cycle_timer =
      if s.cycle_counter < s.config.boss_cycle then s.cycle_timer + 1 else s.cycle_timer := by
  simp only [Scene.entity_factory]
  split_ifs <;> simp_all [MusicPlayer.play_music, create_boss, factory_create_entity]

lemma entity_factory_counter (s : Scene) :
    (s.entity_factory).1.cycle_counter =
      if s.cycle_counter < s.config.boss_cycle ∧
          (s.cycle_timer + 1) % s.config.new_body_cycle = 0
      then s.cycle_counter + 1 else s.cycle_counter := by
  simp only [Scene.entity_factory]
  split_ifs <;> simp_all [MusicPlayer.play_music, create_boss, factory_create_entity]

lemma entity_factory_config (s : Scene) : (s.entity_factory).1.config = s.config := by
  simp only [Scene.entity_factory]
  split_ifs <;> simp_all [MusicPlayer.play_music, create_boss, factory_create_entity]

lemma entity_factory_state (s : Scene) : (s.entity_factory).1.state = s.state := by
  simp only [Scene.entity_factory]
  split_ifs <;> simp_all [MusicPlayer.play_music, create_boss, factory_create_entity]

lemma entity_factory_flag (s : Scene) : (s.entity_factory).1.world.flag = s.world.flag := by
  simp only [Scene.entity_factory]
  split_ifs <;>
    simp_all [MusicPlayer.play_music, create_boss, factory_create_entity, World.create_entity]

lemma entity_factory_entities (s : Scene) :
    (s.entity_factory).1.world.entities = s.world.entities ∨
      ∃ k, (s.entity_factory).1.world.entities = s.world.entities ++ [k] := by
  simp only [Scene.entity_factory]
  split_ifs <;>
    simp_all [MusicPlayer.play_music, create_boss, factory_create_entity, World.create_entity]

lemma entity_factory_trace (s : Scene) :
    (s.entity_factory).2 =
      if s.cycle_counter < s.config.boss_cycle then
        (if s.cycle_timer = 0 then [Ev.playMusic s.config.normal_music] else []) ++
        (if (s.cycle_timer + 1) % s.config.new_body_cycle = 0 then
           (if s.cycle_counter + 1 = s.config.boss_cycle then
              [Ev.playMusic s.config.boss_music, Ev.spawnBoss]
            else [Ev.spawnRoutine])
         else [])
      else [] := by
  simp only [Scene.entity_factory]
  split_ifs <;> simp_all [MusicPlayer.play_music, create_boss, factory_create_entity]

lemma update_labels_state (s : Scene) (t : String) : (s.update_labels t).state = s.state := by
  simp only [Scene.update_labels]
  split <;> rfl

lemma update_eq_of_waiting (s : Scene) (sys : World → World)
    (h : s.state = GameState.WaitingInput) : s.update sys = s := by
  simp [Scene.update, h]

lemma update_eq_of_other (s : Scene) (sys : World → World)
    (h1 : s.state ≠ GameState.WaitingInput) (h2 : s.state ≠ GameState.Running) :
    s.update sys = updateTail s := by
  simp only [Scene.update, updateTail]
  rw [if_pos h1, if_neg h2]

lemma update_eq_of_running (s : Scene) (sys : World → World)
    (h : s.state = GameState.Running) :
    s.update sys =
      updateTail
        (match (pipelineResult s sys).world.flag with
         | some f => resolveOutcome f (pipelineResult s sys)
         | none => pipelineResult s sys) := by
  simp only [Scene.update, updateTail, pipelineResult, resolveOutcome]
  rw [if_pos (by rw [h]; exact fun hcon => nomatch hcon), if_pos h]
  rcases (((s.entity_factory).1).run_update_systems sys).world.flag with - | f
  · rfl
  · rcases f <;> rfl

lemma schedIter_inv (cfg : SceneConfig) (hk : 0 < cfg.new_body_cycle) (n : Nat) :
    (schedIter cfg n).cycle_timer = min n (cfg.new_body_cycle * cfg.boss_cycle) ∧
    (schedIter cfg n).cycle_counter = min (n / cfg.new_body_cycle) cfg.boss_cycle ∧
    (schedIter cfg n).config = cfg := by
  set k := cfg.new_body_cycle with hkdef
  set b := cfg.boss_cycle with hbdef
  induction n with
  | zero =>
    refine ⟨?_, ?_, ?_⟩ <;> simp [schedIter, Scene.new]
  | succ n ih =>
    obtain ⟨ht, hc, hcfg⟩ := ih
    have hm : k * b = b * k := Nat.mul_comm k b
    have hstep : schedIter cfg (n + 1) = ((schedIter cfg n).entity_factory).1 := rfl
    rw [hstep, entity_factory_timer, entity_factory_counter, entity_factory_config, hcfg,
      ht, hc]
    refine ⟨?_, ?_, rfl⟩
    · by_cases hn : n < k * b
      · have h2 : n / k < b := by
          rw [Nat.div_lt_iff_lt_mul hk]
          omega
        rw [if_pos (by omega : min (n / k) b < b)]
        omega
      · have h2 : b ≤ n / k := by
          rw [Nat.le_div_iff_mul_le hk]
          omega
        rw [if_neg (by omega : ¬ min (n / k) b < b)]
        omega
    · by_cases hn : n < k * b
      · have h2 : n / k < b := by
          rw [Nat.div_lt_iff_lt_mul hk]
          omega
        have hle : (n + 1) / k ≤ b := by
          calc (n + 1) / k ≤ (k * b) / k := Nat.div_le_div_right (by omega)
            _ = b := Nat.mul_div_cancel_left b hk
        have hsucc : (n + 1) / k = n / k + if k ∣ (n + 1) then 1 else 0 := Nat.succ_div n k
        by_cases hd : (n + 1) % k = 0
        · have hdvd : k ∣ (n + 1) := Nat.dvd_iff_mod_eq_zero.mpr hd
          rw [if_pos ⟨by omega, by rw [(by omega : min n (k * b) = n)]; exact hd⟩]
          rw [hsucc, if_pos hdvd]
          omega
        · have hnd : ¬ k ∣ (n + 1) := by
            intro hcon
            exact hd (Nat.dvd_iff_mod_eq_zero.mp hcon)
          rw [if_neg (by
            rintro ⟨-, hcon⟩
            rw [(by omega : min n (k * b) = n)] at hcon
            exact hd hcon)]
          rw [hsucc, if_neg hnd]
          omega
      · have h2 : b ≤ n / k := by
          rw [Nat.le_div_iff_mul_le hk]
          omega
        have h3 : b ≤ (n + 1) / k := le_trans h2 (Nat.div_le_div_right (by omega))
        rw [if_neg (by omega : ¬ (min (n / k) b < b ∧ (min n (k * b) + 1) % k = 0))]
        omega

/-- C1: while `Running`, the spawn scheduler of a session with spawn
interval `new_body_cycle` and threshold `boss_cycle` makes, on its
`n + 1`-st tick, exactly these external calls: the normal track starts
on tick 1; a spawn request is made exactly when the tick count (the
value `cycle_timer` reaches) is a multiple of the interval, routine
for the first `boss_cycle - 1` of them and boss (preceded by the boss
track switch) at tick `new_body_cycle * boss_cycle`; after the boss
request every tick makes no call at all.  With interval 10 and
threshold 3 this puts routine requests exactly at ticks 10 and 20, the
boss request at tick 30 and nothing afterwards. -/
theorem c1_spawn_scheduler (cfg : SceneConfig) (hk : 0 < cfg.new_body_cycle)
    (_hb : 0 < cfg.boss_cycle) (n : Nat) :
    tickTrace cfg n =
      if n + 1 ≤ cfg.new_body_cycle * cfg.boss_cycle then
        (if n = 0 then [Ev.playMusic cfg.normal_music] else []) ++
        (if (n + 1) % cfg.new_body_cycle = 0 then
           (if n + 1 = cfg.new_body_cycle * cfg.boss_cycle then
              [Ev.playMusic cfg.boss_music, Ev.spawnBoss]
            else [Ev.spawnRoutine])
         else [])
      else [] := by
  obtain ⟨ht, hc, hcfg⟩ := schedIter_inv cfg hk n
  rw [tickTrace, entity_factory_trace, ht, hc, hcfg]
  set k := cfg.new_body_cycle with hkdef
  set b := cfg.boss_cycle with hbdef
  have hm : k * b = b * k := Nat.mul_comm k b
  by_cases hn : n < k * b
  · have h2 : n / k < b := by
      rw [Nat.div_lt_iff_lt_mul hk]
      omega
    rw [if_pos (by omega : min (n / k) b < b), if_pos (by omega : n + 1 ≤ k * b)]
    have hmin1 : min n (k * b) = n := by omega
    have hmin2 : min (n / k) b = n / k := by omega
    rw [hmin1, hmin2]
    by_cases hd : (n + 1) % k = 0
    · have hdvd : k ∣ (n + 1) := Nat.dvd_iff_mod_eq_zero.mpr hd
      have hsucc : (n + 1) / k = n / k + 1 := by
        rw [Nat.succ_div, if_pos hdvd]
      have hiff : n / k + 1 = b ↔ n + 1 = k * b := by
        constructor
        · intro h
          have hcan := Nat.div_mul_cancel hdvd
          rw [← hcan, hsucc, h, Nat.mul_comm]
        · intro h
          have : (n + 1) / k = b := by
            rw [h, Nat.mul_div_cancel_left b hk]
          omega
      by_cases hb2 : n / k + 1 = b
      · rw [if_pos hb2, if_pos (hiff.mp hb2)]
      · rw [if_neg hb2, if_neg (fun hcon => hb2 (hiff.mpr hcon))]
    · simp only [if_neg hd]
  · rw [if_neg (by
        have h2 : b ≤ n / k := by
          rw [Nat.le_div_iff_mul_le hk]
          omega
        omega : ¬ min (n / k) b < b),
      if_neg (by omega : ¬ n + 1 ≤ k * b)]

/-- Witness for C1 at spawn interval 10, threshold 3: tick 30 makes
exactly the boss-track switch and the boss-spawn request. -/
theorem c1_spawn_scheduler_witness :
    tickTrace { SceneConfig.default with new_body_cycle := 10, boss_cycle := 3 } 29 =
      [Ev.playMusic "music/boss.ogg", Ev.spawnBoss] := by
  rw [c1_spawn_scheduler { SceneConfig.default with new_body_cycle := 10, boss_cycle := 3 }
    (by decide) (by decide) 29]
  decide

lemma entity_factory_music_updates (s : Scene) :
    (s.entity_factory).1.music_player.updates = s.music_player.updates := by
  simp only [Scene.entity_factory]
  split_ifs <;> simp_all [MusicPlayer.play_music, create_boss, factory_create_entity]

lemma resolveOutcome_state (f : GameStateFlag) (s : Scene) :
    (resolveOutcome f s).state = GameState.GameOver := by
  rcases f <;> rfl

lemma resolveOutcome_music_updates (f : GameStateFlag) (s : Scene) :
    (resolveOutcome f s).music_player.updates = s.music_player.updates := by
  rcases f <;> rfl

lemma resolveOutcome_maintains (f : GameStateFlag) (s : Scene) :
    (resolveOutcome f s).world.maintains = s.world.maintains := by
  rcases f <;> rfl

/-- C2 (amended): in an update call made while `Running`, once the
pipeline (scheduler tick plus simulation systems `sys`) has run, a set
`OutcomeFlag` dispatches the matching outcome resolver; the update
call then still performs its remaining per-frame work — the audio
advance and the deferred-mutation commit run after the resolver rather
than being skipped. -/
theorem c2_outcome_dispatch (s : Scene) (sys : World → World) (f : GameStateFlag)
    (h : s.state = GameState.Running)
    (hf : (pipelineResult s sys).world.flag = some f) :
    s.update sys = updateTail (resolveOutcome f (pipelineResult s sys)) ∧
    (s.update sys).state = GameState.GameOver ∧
    (s.update sys).music_player.updates = s.music_player.updates + 1 ∧
    (s.update sys).world.maintains = (pipelineResult s sys).world.maintains + 1 := by
  have h1 := update_eq_of_running s sys h
  rw [hf] at h1
  refine ⟨h1, ?_, ?_, ?_⟩
  · rw [h1]
    show (resolveOutcome f (pipelineResult s sys)).state = GameState.GameOver
    exact resolveOutcome_state f (pipelineResult s sys)
  · rw [h1]
    show (resolveOutcome f (pipelineResult s sys)).music_player.updates + 1
        = s.music_player.updates + 1
    rw [resolveOutcome_music_updates]
    show ((s.entity_factory).1).music_player.updates + 1 = s.music_player.updates + 1
    rw [entity_factory_music_updates]
  · rw [h1]
    show (resolveOutcome f (pipelineResult s sys)).world.maintains + 1
        = (pipelineResult s sys).world.maintains + 1
    rw [resolveOutcome_maintains]

/-- Counterexample to C2 as stated: in a running session with the
outcome flag set to `Victory`, the update call does dispatch the
victory resolver (state becomes `GameOver`), yet the remaining
per-frame work is not skipped — the audio advance and the
deferred-mutation commit of that same call still execute. -/
theorem c2_counterexample :
    (sceneRunningVictory.update id).state = GameState.GameOver ∧
    ¬ ((sceneRunningVictory.update id).music_player.updates
        = sceneRunningVictory.music_player.updates) ∧
    ¬ ((sceneRunningVictory.update id).world.maintains
        = sceneRunningVictory.world.maintains) := by
  decide

/-- Witness for C2 (amended) at a concrete running session with the
flag set to `Victory` and the identity system pipeline. -/
theorem c2_outcome_dispatch_witness :
    (sceneRunningVictory.update id).state = GameState.GameOver :=
  (c2_outcome_dispatch sceneRunningVictory id GameStateFlag.Victory rfl (by decide)).2.1

/-- C3: a draw call advances the state from `Initialiazing` to
`Running` exactly when both asset handles poll ready; while either
handle is not ready the draw call leaves the state at `Initialiazing`
(so the transition happens precisely on the first draw call with both
ready), and a draw call never changes the state from any other
state. -/
theorem c3_asset_gate (s : Scene) (a f : Bool) (fps : String) :
    (s.state = GameState.Initialiazing →
      (((s.draw a f fps).state = GameState.Running ↔ (a && f) = true) ∧
       ((a && f) = false → (s.draw a f fps).state = GameState.Initialiazing))) ∧
    (s.state ≠ GameState.Initialiazing → (s.draw a f fps).state = s.state) := by
  obtain ⟨w, hero, st, ct, cc, mp, cfg⟩ := s
  cases st <;> cases a <;> cases f <;>
    simp [Scene.draw, Scene.has_loaded_atlas, Scene.has_loaded_font, update_labels_state,
      World.maintain]

/-- Witness for C3: with both handles ready, the first draw call of an
initializing session reaches `Running`; with the font handle not yet
ready, the call leaves the session at `Initialiazing`. -/
theorem c3_asset_gate_witness :
    (sceneInit.draw true true "60").state = GameState.Running ∧
    (sceneInit.draw true false "60").state = GameState.Initialiazing :=
  ⟨((c3_asset_gate sceneInit true true "60").1 rfl).1.mpr rfl,
   ((c3_asset_gate sceneInit true false "60").1 rfl).2 rfl⟩

/-- C5: `defeat` and `victory` both equal the spec-side resolver
(destroy every entity, create one outcome background, state
`GameOver`, switch to the outcome track), instantiated only with a
different background image and music track; in particular each leaves
the store with exactly one entity and the state `GameOver`. -/
theorem c5_outcome_resolvers (s : Scene) :
    s.defeat = outcomeSpec s s.config.defeat_background s.config.game_over_music ∧
    s.victory = outcomeSpec s s.config.victory_background s.config.victory_music ∧
    (s.defeat).world.entities.length = 1 ∧ (s.defeat).state = GameState.GameOver ∧
    (s.victory).world.entities.length = 1 ∧ (s.victory).state = GameState.GameOver := by
  refine ⟨rfl, rfl, rfl, rfl, rfl, rfl⟩

/-- C7: the label dictionary survives a draw call unchanged whenever
the state governing that call's label phase is not `Running` (`draw`
changes state only at the asset gate, before the label phase, so that
state is the post-call state) or the protagonist is not resolvable in
the store. -/
theorem c7_label_refresh (s : Scene) (a f : Bool) (fps : String)
    (h : (s.draw a f fps).state ≠ GameState.Running ∨ heroLookup s.world s.hero = none) :
    (s.draw a f fps).world.dict = s.world.dict := by
  obtain ⟨w, hero, st, ct, cc, mp, cfg⟩ := s
  rcases hh : heroLookup w hero with - | hv <;>
    cases st <;> cases a <;> cases f <;>
      rcases h with h | h <;>
        simp_all [Scene.draw, Scene.has_loaded_atlas, Scene.has_loaded_font,
          Scene.update_labels, World.maintain]

/-- Witness for C7: a draw of a paused session leaves the dictionary
unchanged. -/
theorem c7_label_refresh_witness :
    (scenePaused.draw true true "60").world.dict = scenePaused.world.dict :=
  c7_label_refresh scenePaused true true "60" (Or.inl (by decide))

/-- C4 (amended): for every state, an input event that is neither one
of the section 4.1 table transitions nor one of the directional-key
press/release events routed into `PressedKeySet` while
`Running`/`Paused` (section 4.4) leaves both the state and the
`PressedKeySet` resource unchanged. -/
theorem c4_unhandled_events (s : Scene) (e : Event)
    (h : handledEvent s.state e = false) :
    ((s.event e).1).state = s.state ∧
    ((s.event e).1).world.pressedKeys = s.world.pressedKeys := by
  obtain ⟨w, hero, st, ct, cc, mp, cfg⟩ := s
  cases st <;>
    rcases e with ⟨k, bs⟩ | ⟨pad, b, bs⟩ | n <;>
      first
      | (cases k <;> cases bs <;>
          first
          | exact ⟨rfl, rfl⟩
          | exact nomatch h)
      | (cases b <;> cases bs <;>
          first
          | exact ⟨rfl, rfl⟩
          | exact nomatch h)
      | exact ⟨rfl, rfl⟩

/-- Counterexample to C4 as stated: an Up-key press while `Running` is
not a transition of the section 4.1 table, yet it does not leave the
`PressedKeySet` resource unchanged (it sets the up-direction bit). -/
theorem c4_counterexample :
    tableEvent sceneRunning.state (Event.key Key.up BState.pressed) = false ∧
    ¬ (((sceneRunning.event (Event.key Key.up BState.pressed)).1).world.pressedKeys
        = sceneRunning.world.pressedKeys) := by
  decide

/-- Witness for C4 (amended): an unrecognized window event in a
running session changes neither the state nor the pressed-key set. -/
theorem c4_unhandled_events_witness :
    ((sceneRunning.event (Event.otherEvent 0)).1).state = sceneRunning.state ∧
    ((sceneRunning.event (Event.otherEvent 0)).1).world.pressedKeys
        = sceneRunning.world.pressedKeys :=
  c4_unhandled_events sceneRunning (Event.otherEvent 0) (by decide)

/-- C6: across one update call (with an arbitrary system pipeline),
`cycle_counter` never decreases and never exceeds `boss_cycle`. -/
theorem c6_cycle_counter (s : Scene) (sys : World → World)
    (h : s.cycle_counter ≤ s.config.boss_cycle) :
    s.cycle_counter ≤ (s.update sys).cycle_counter ∧
    (s.update sys).cycle_counter ≤ s.config.boss_cycle := by
  by_cases hw : s.state = GameState.WaitingInput
  · rw [update_eq_of_waiting s sys hw]
    exact ⟨le_refl _, h⟩
  by_cases hr : s.state = GameState.Running
  · rw [update_eq_of_running s sys hr]
    have hc : (updateTail
        (match (pipelineResult s sys).world.flag with
         | some f => resolveOutcome f (pipelineResult s sys)
         | none => pipelineResult s sys)).cycle_counter
        = ((s.entity_factory).1).cycle_counter := by
      rcases (pipelineResult s sys).world.flag with - | f
      · rfl
      · rcases f <;> rfl
    rw [hc, entity_factory_counter]
    split_ifs with h2
    · exact ⟨Nat.le_succ _, by omega⟩
    · exact ⟨le_refl _, h⟩
  · rw [update_eq_of_other s sys hw hr]
    exact ⟨le_refl _, h⟩

/-- Witness for C6 on a fresh running default session with the
identity system pipeline. -/
theorem c6_cycle_counter_witness :
    sceneRunning.cycle_counter ≤ (sceneRunning.update id).cycle_counter ∧
    (sceneRunning.update id).cycle_counter ≤ sceneRunning.config.boss_cycle :=
  c6_cycle_counter sceneRunning id (by decide)

/-- C8: while `Running` or `Paused`, an escape-key press sets the
outcome flag to `Defeat` and the event call itself leaves the state
unchanged (the transition is performed by a later update call). -/
theorem c8_escape_defeat (s : Scene)
    (h : s.state = GameState.Running ∨ s.state = GameState.Paused) :
    ((s.event (Event.key Key.escape BState.pressed)).1).world.flag
        = some GameStateFlag.Defeat ∧
    ((s.event (Event.key Key.escape BState.pressed)).1).state = s.state := by
  obtain ⟨w, hero, st, ct, cc, mp, cfg⟩ := s
  rcases h with h | h <;> subst h <;> exact ⟨rfl, rfl⟩

/-- Witness for C8 in a running default session. -/
theorem c8_escape_defeat_witness :
    ((sceneRunning.event (Event.key Key.escape BState.pressed)).1).world.flag
        = some GameStateFlag.Defeat ∧
    ((sceneRunning.event (Event.key Key.escape BState.pressed)).1).state
        = sceneRunning.state :=
  c8_escape_defeat sceneRunning (Or.inl rfl)

/-- C9: on the first tick of a fresh spawn cycle (`cycle_timer == 0`,
scheduler not yet in the inert boss phase), the scheduler's first
external call is the switch to the normal music track, made while
`cycle_timer` is still 0, and only then is `cycle_timer`
incremented. -/
theorem c9_fresh_cycle_music (s : Scene)
    (h1 : s.cycle_counter < s.config.boss_cycle) (h2 : s.cycle_timer = 0) :
    ((s.entity_factory).2).head? = some (Ev.playMusic s.config.normal_music) ∧
    ((s.entity_factory).1).cycle_timer = s.cycle_timer + 1 := by
  constructor
  · rw [entity_factory_trace, if_pos h1, if_pos h2]
    simp
  · rw [entity_factory_timer, if_pos h1]

/-- Witness for C9 on a fresh running default session (tick 1 of the
first cycle). -/
theorem c9_fresh_cycle_music_witness :
    ((sceneRunning.entity_factory).2).head?
        = some (Ev.playMusic sceneRunning.config.normal_music) ∧
    ((sceneRunning.entity_factory).1).cycle_timer = sceneRunning.cycle_timer + 1 :=
  c9_fresh_cycle_music sceneRunning (by decide) rfl

/-- C10: an update call made while `Paused` with the outcome flag
already set to `Defeat` invokes no outcome resolver — state stays
`Paused`, the flag stays set, the entities are untouched; after the
pause key returns the session to `Running`, the next update call (with
any system pipeline that leaves the flag alone) resolves the deferred
quit into `GameOver`. -/
theorem c10_paused_quit_deferred (s : Scene) (sys : World → World)
    (h1 : s.state = GameState.Paused) (h2 : s.world.flag = some GameStateFlag.Defeat)
    (hsys : ∀ w, (sys w).flag = w.flag) :
    (s.update sys).state = GameState.Paused ∧
    (s.update sys).world.flag = some GameStateFlag.Defeat ∧
    (s.update sys).world.entities = s.world.entities ∧
    ((((s.update sys).event (Event.key Key.p BState.pressed)).1).state
        = GameState.Running) ∧
    (((((s.update sys).event (Event.key Key.p BState.pressed)).1).update sys).state
        = GameState.GameOver) := by
  obtain ⟨w, hero, st, ct, cc, mp, cfg⟩ := s
  subst h1
  have hu : Scene.update ⟨w, hero, GameState.Paused, ct, cc, mp, cfg⟩ sys
      = updateTail ⟨w, hero, GameState.Paused, ct, cc, mp, cfg⟩ :=
    update_eq_of_other _ sys (fun hc => nomatch hc) (fun hc => nomatch hc)
  rw [hu]
  refine ⟨rfl, h2, rfl, ?_, ?_⟩
  · rfl
  · have he : ((updateTail ⟨w, hero, GameState.Paused, ct, cc, mp, cfg⟩).event
        (Event.key Key.p BState.pressed)).1
        = ⟨w.maintain, hero, GameState.Running, ct, cc, mp.update, cfg⟩ := rfl
    rw [he]
    set s2 : Scene := ⟨w.maintain, hero, GameState.Running, ct, cc, mp.update, cfg⟩ with hs2
    have hflag : (pipelineResult s2 sys).world.flag = some GameStateFlag.Defeat := by
      show (sys ((s2.entity_factory).1.world)).flag = _
      rw [hsys, entity_factory_flag]
      exact h2
    have hrun := update_eq_of_running s2 sys rfl
    rw [hflag] at hrun
    rw [hrun]
    show (resolveOutcome GameStateFlag.Defeat (pipelineResult s2 sys)).state = _
    exact resolveOutcome_state _ _

/-- Witness for C10 on a paused default session with the flag set to
`Defeat` and the identity system pipeline. -/
theorem c10_paused_quit_deferred_witness :
    (scenePausedDefeat.update id).state = GameState.Paused ∧
    (scenePausedDefeat.update id).world.flag = some GameStateFlag.Defeat ∧
    (scenePausedDefeat.update id).world.entities = scenePausedDefeat.world.entities ∧
    ((((scenePausedDefeat.update id).event (Event.key Key.p BState.pressed)).1).state
        = GameState.Running) ∧
    (((((scenePausedDefeat.update id).event (Event.key Key.p BState.pressed)).1).update
        id).state = GameState.GameOver) :=
  c10_paused_quit_deferred scenePausedDefeat id rfl rfl (fun _ => rfl)
